import Mathlib

/-!
Shallow embedding of the Turtle3D rendering core (src/Turtle3D.py) over real
arithmetic, together with theorems settling the frozen claims about it.

Python floats are modelled as real numbers; Python `None`-able float
parameters as `Option ℝ`; Python truthiness of a float (`if x:`) is `x`
present and nonzero.  Out-of-range list indexing, which raises `IndexError`
in Python, is modelled with `List.getD` and a default vertex; theorems about
well-formed meshes never hit the default.
-/

open Real

namespace Turtle3D

/-- A 3D vertex / vector, `[x, y, z]` in the source. -/
@[ext]
structure Vec3 where
  x : ℝ
  y : ℝ
  z : ℝ

/-- An RGB color triple; the source stores these as Python tuples. -/
@[ext]
structure RGB where
  r : ℝ
  g : ℝ
  b : ℝ

/-- The default vertex used by `List.getD` where Python would raise. -/
def v0 : Vec3 := ⟨0, 0, 0⟩

/-- `math.radians(angle)`: degrees to radians. -/
noncomputable def radians (deg : ℝ) : ℝ := deg * Real.pi / 180

/-- `Object._rotate_x` (src/Turtle3D.py:784-807): rotate every vertex by
`angle` degrees about the X axis around `pivot`, with the source's exact
sign pattern `new_a = a·cos + b·sin; new_b = b·cos − a·sin`. -/
noncomputable def rotate_x (angle : ℝ) (pivot : Vec3) (vertex_array : List Vec3) : List Vec3 :=
  let a := radians angle
  let sinTheata := Real.sin a
  let cosTheata := Real.cos a
  vertex_array.map fun v =>
    let y := v.y - pivot.y
    let z := v.z - pivot.z
    ⟨v.x, (y * cosTheata + z * sinTheata) + pivot.y, (z * cosTheata - y * sinTheata) + pivot.z⟩

/-- `Object._rotate_y` (src/Turtle3D.py:809-832). -/
noncomputable def rotate_y (angle : ℝ) (pivot : Vec3) (vertex_array : List Vec3) : List Vec3 :=
  let a := radians angle
  let sinTheata := Real.sin a
  let cosTheata := Real.cos a
  vertex_array.map fun v =>
    let x := v.x - pivot.x
    let z := v.z - pivot.z
    ⟨(x * cosTheata + z * sinTheata) + pivot.x, v.y, (z * cosTheata - x * sinTheata) + pivot.z⟩

/-- `Object._rotate_z` (src/Turtle3D.py:834-857). -/
noncomputable def rotate_z (angle : ℝ) (pivot : Vec3) (vertex_array : List Vec3) : List Vec3 :=
  let a := radians angle
  let sinTheata := Real.sin a
  let cosTheata := Real.cos a
  vertex_array.map fun v =>
    let x := v.x - pivot.x
    let y := v.y - pivot.y
    ⟨(x * cosTheata + y * sinTheata) + pivot.x, (y * cosTheata - x * sinTheata) + pivot.y, v.z⟩

lemma radians_neg (d : ℝ) : radians (-d) = -radians d := by
  unfold radians; ring

lemma radians_zero : radians 0 = 0 := by
  unfold radians; ring

lemma rotate_x_neg_cancel (θ : ℝ) (p : Vec3) (vs : List Vec3) :
    rotate_x (-θ) p (rotate_x θ p vs) = vs := by
  unfold rotate_x
  rw [List.map_map]
  have key : ∀ v : Vec3,
      ((fun v : Vec3 =>
        let y := v.y - p.y
        let z := v.z - p.z
        (⟨v.x, (y * Real.cos (radians (-θ)) + z * Real.sin (radians (-θ))) + p.y,
          (z * Real.cos (radians (-θ)) - y * Real.sin (radians (-θ))) + p.z⟩ : Vec3)) ∘
       (fun v : Vec3 =>
        let y := v.y - p.y
        let z := v.z - p.z
        (⟨v.x, (y * Real.cos (radians θ) + z * Real.sin (radians θ)) + p.y,
          (z * Real.cos (radians θ) - y * Real.sin (radians θ)) + p.z⟩ : Vec3))) v = v := by
    intro v
    have hsc := Real.sin_sq_add_cos_sq (radians θ)
    simp only [Function.comp, radians_neg, Real.cos_neg, Real.sin_neg]
    ext
    · rfl
    · dsimp only
      linear_combination (v.y - p.y) * hsc
    · dsimp only
      linear_combination (v.z - p.z) * hsc
  calc vs.map _ = vs.map id := List.map_congr_left (fun v _ => key v)
    _ = vs := List.map_id vs

lemma rotate_y_neg_cancel (θ : ℝ) (p : Vec3) (vs : List Vec3) :
    rotate_y (-θ) p (rotate_y θ p vs) = vs := by
  unfold rotate_y
  rw [List.map_map]
  have key : ∀ v : Vec3,
      ((fun v : Vec3 =>
        let x := v.x - p.x
        let z := v.z - p.z
        (⟨(x * Real.cos (radians (-θ)) + z * Real.sin (radians (-θ))) + p.x, v.y,
          (z * Real.cos (radians (-θ)) - x * Real.sin (radians (-θ))) + p.z⟩ : Vec3)) ∘
       (fun v : Vec3 =>
        let x := v.x - p.x
        let z := v.z - p.z
        (⟨(x * Real.cos (radians θ) + z * Real.sin (radians θ)) + p.x, v.y,
          (z * Real.cos (radians θ) - x * Real.sin (radians θ)) + p.z⟩ : Vec3))) v = v := by
    intro v
    have hsc := Real.sin_sq_add_cos_sq (radians θ)
    simp only [Function.comp, radians_neg, Real.cos_neg, Real.sin_neg]
    ext
    · dsimp only
      linear_combination (v.x - p.x) * hsc
    · rfl
    · dsimp only
      linear_combination (v.z - p.z) * hsc
  calc vs.map _ = vs.map id := List.map_congr_left (fun v _ => key v)
    _ = vs := List.map_id vs

lemma rotate_z_neg_cancel (θ : ℝ) (p : Vec3) (vs : List Vec3) :
    rotate_z (-θ) p (rotate_z θ p vs) = vs := by
  unfold rotate_z
  rw [List.map_map]
  have key : ∀ v : Vec3,
      ((fun v : Vec3 =>
        let x := v.x - p.x
        let y := v.y - p.y
        (⟨(x * Real.cos (radians (-θ)) + y * Real.sin (radians (-θ))) + p.x,
          (y * Real.cos (radians (-θ)) - x * Real.sin (radians (-θ))) + p.y, v.z⟩ : Vec3)) ∘
       (fun v : Vec3 =>
        let x := v.x - p.x
        let y := v.y - p.y
        (⟨(x * Real.cos (radians θ) + y * Real.sin (radians θ)) + p.x,
          (y * Real.cos (radians θ) - x * Real.sin (radians θ)) + p.y, v.z⟩ : Vec3))) v = v := by
    intro v
    have hsc := Real.sin_sq_add_cos_sq (radians θ)
    simp only [Function.comp, radians_neg, Real.cos_neg, Real.sin_neg]
    ext
    · dsimp only
      linear_combination (v.x - p.x) * hsc
    · dsimp only
      linear_combination (v.y - p.y) * hsc
    · rfl
  calc vs.map _ = vs.map id := List.map_congr_left (fun v _ => key v)
    _ = vs := List.map_id vs

/-- C6: for every vertex list, pivot and angle θ, rotating by θ and then by
−θ about the same single axis and pivot restores the original vertex
positions exactly over real arithmetic, for each of the three axis-rotation
routines of `Object`. -/
theorem rotate_then_unrotate_restores (θ : ℝ) (p : Vec3) (vs : List Vec3) :
    rotate_x (-θ) p (rotate_x θ p vs) = vs ∧
    rotate_y (-θ) p (rotate_y θ p vs) = vs ∧
    rotate_z (-θ) p (rotate_z θ p vs) = vs :=
  ⟨rotate_x_neg_cancel θ p vs, rotate_y_neg_cancel θ p vs, rotate_z_neg_cancel θ p vs⟩

/-- The mutable state of a `Camera` (src/Turtle3D.py:385-438): position,
rotation (degrees per axis), field of view, near/far planes, rotation
application order (a list of the characters x, y, z) and the optional
per-axis rotation clamp ranges.  The name/id registry bookkeeping carries no
geometry and is modelled separately for the `Light` registry claim. -/
structure Camera where
  position : Vec3
  rotation : Vec3
  fov : ℝ
  near_plane : ℝ
  far_plane : ℝ
  rotation_order : List Char
  x_clamp : Option (ℝ × ℝ)
  y_clamp : Option (ℝ × ℝ)
  z_clamp : Option (ℝ × ℝ)

/-- `Camera.__init__` (src/Turtle3D.py:404-438), restricted to the default
substitution of its parameters.  The three clamp lines are reproduced
exactly: line 418 `if x_clamp is None: x_clamp = None` is a no-op, line 419
`if y_clamp is None: z_clamp = None` overwrites `z_clamp` whenever no
`y_clamp` was supplied, and line 420 `if z_clamp is None: z_clamp = None` is
again a no-op. -/
noncomputable def camera_init (position rotation : Option Vec3) (fov near_plane far_plane : Option ℝ)
    (rotation_order : Option (List Char)) (x_clamp y_clamp z_clamp : Option (ℝ × ℝ)) : Camera :=
  let position := position.getD ⟨0, 0, 0⟩
  let rotation := rotation.getD ⟨0, 0, 0⟩
  let fov := fov.getD 60
  let near_plane := near_plane.getD 0.1
  let far_plane := far_plane.getD 1000
  let rotation_order := rotation_order.getD ['y', 'x', 'z']
  let z_clamp := match y_clamp with
    | none => none
    | some _ => z_clamp
  { position := position, rotation := rotation, fov := fov, near_plane := near_plane,
    far_plane := far_plane, rotation_order := rotation_order,
    x_clamp := x_clamp, y_clamp := y_clamp, z_clamp := z_clamp }

/-- Clamp a value to an optional `[min, max]` range the way
`Camera.set_rotation` does: `if v < clamp[0]: v = clamp[0]
elif v > clamp[1]: v = clamp[1]`. -/
noncomputable def apply_clamp (clamp : Option (ℝ × ℝ)) (v : ℝ) : ℝ :=
  match clamp with
  | none => v
  | some c => if v < c.1 then c.1 else if v > c.2 then c.2 else v

/-- `Camera.set_rotation` (src/Turtle3D.py:486-509).  Each argument is only
acted on when truthy (present and nonzero).  The `x` and `y` branches write
`self._rotation[0]` and `self._rotation[1]`; the `z` branch of the source
writes `self._rotation[0]` (line 509), not `self._rotation[2]`. -/
noncomputable def Camera.set_rotation (c : Camera) (x y z : Option ℝ) : Camera :=
  let c := match x with
    | none => c
    | some xv => if xv = 0 then c else
        { c with rotation := { c.rotation with x := apply_clamp c.x_clamp xv } }
  let c := match y with
    | none => c
    | some yv => if yv = 0 then c else
        { c with rotation := { c.rotation with y := apply_clamp c.y_clamp yv } }
  let c := match z with
    | none => c
    | some zv => if zv = 0 then c else
        { c with rotation := { c.rotation with x := apply_clamp c.z_clamp zv } }
  c

/-- `Camera.rotate` (src/Turtle3D.py:512-535): additive rotation, each axis
delta-clamped so that the resulting angle stays inside the configured clamp
range, then added to the matching rotation entry. -/
noncomputable def Camera.rotate (c : Camera) (x y z : Option ℝ) : Camera :=
  let c := match x with
    | none => c
    | some xv => if xv = 0 then c else
        let xv := match c.x_clamp with
          | none => xv
          | some cl => if xv + c.rotation.x < cl.1 then cl.1 - c.rotation.x
              else if xv + c.rotation.x > cl.2 then cl.2 - c.rotation.x else xv
        { c with rotation := { c.rotation with x := c.rotation.x + xv } }
  let c := match y with
    | none => c
    | some yv => if yv = 0 then c else
        let yv := match c.y_clamp with
          | none => yv
          | some cl => if yv + c.rotation.y < cl.1 then cl.1 - c.rotation.y
              else if yv + c.rotation.y > cl.2 then cl.2 - c.rotation.y else yv
        { c with rotation := { c.rotation with y := c.rotation.y + yv } }
  let c := match z with
    | none => c
    | some zv => if zv = 0 then c else
        let zv := match c.z_clamp with
          | none => zv
          | some cl => if zv + c.rotation.z < cl.1 then cl.1 - c.rotation.z
              else if zv + c.rotation.z > cl.2 then cl.2 - c.rotation.z else zv
        { c with rotation := { c.rotation with z := c.rotation.z + zv } }
  c

/-- `Camera.set_position` (src/Turtle3D.py:550-561): `if x: self._position[0] = x`
and likewise for y and z. -/
noncomputable def Camera.set_position (c : Camera) (x y z : Option ℝ) : Camera :=
  let c := match x with
    | none => c
    | some xv => if xv = 0 then c else { c with position := { c.position with x := xv } }
  let c := match y with
    | none => c
    | some yv => if yv = 0 then c else { c with position := { c.position with y := yv } }
  let c := match z with
    | none => c
    | some zv => if zv = 0 then c else { c with position := { c.position with z := zv } }
  c

/-- A camera constructed with every argument defaulted. -/
noncomputable def default_camera : Camera :=
  camera_init none none none none none none none none none

/-- C1 (failing input): on a freshly constructed default camera (rotation
`[0,0,0]`, no clamps), `set_rotation(z=45)` stores 45 into the X-axis
rotation entry and leaves the Z-axis entry at 0, because line 509 of the
source assigns `self._rotation[0] = z`.  The claim (and the method's own
docstring) require the Z-axis entry to become 45. -/
theorem camera_set_rotation_z_writes_x_axis :
    (default_camera.set_rotation none none (some 45)).rotation = ⟨45, 0, 0⟩ ∧
    (default_camera.set_rotation none none (some 45)).rotation.z = 0 := by
  constructor
  · simp [default_camera, camera_init, Camera.set_rotation, apply_clamp]
  · simp [default_camera, camera_init, Camera.set_rotation, apply_clamp]

/-- C10: a camera constructed with a `z_clamp` argument but no `y_clamp`
argument ends up with `z_clamp = None` (line 419 of the source overwrites it),
so `rotate` adds any truthy `z` delta to the Z-axis rotation without any
clamping, and `set_rotation`'s `z` branch likewise applies no clamp to the
supplied value. -/
theorem z_clamp_discarded_without_y_clamp (position rotation : Option Vec3)
    (fov near_plane far_plane : Option ℝ) (rotation_order : Option (List Char))
    (x_clamp : Option (ℝ × ℝ)) (zc : ℝ × ℝ) (zv : ℝ) :
    (camera_init position rotation fov near_plane far_plane rotation_order
        x_clamp none (some zc)).z_clamp = none ∧
    ((camera_init position rotation fov near_plane far_plane rotation_order
        x_clamp none (some zc)).rotate none none (some zv)).rotation.z =
      (camera_init position rotation fov near_plane far_plane rotation_order
        x_clamp none (some zc)).rotation.z + (if zv = 0 then 0 else zv) ∧
    (camera_init position rotation fov near_plane far_plane rotation_order
        x_clamp none (some zc)).set_rotation none none (some zv) =
      (if zv = 0 then camera_init position rotation fov near_plane far_plane rotation_order
          x_clamp none (some zc)
       else { camera_init position rotation fov near_plane far_plane rotation_order
          x_clamp none (some zc) with
            rotation := { (camera_init position rotation fov near_plane far_plane rotation_order
              x_clamp none (some zc)).rotation with x := zv } }) := by
    refine ⟨by simp [camera_init], ?_, ?_⟩
    · by_cases hz : zv = 0 <;>
        simp [camera_init, Camera.rotate, hz]
    · by_cases hz : zv = 0 <;>
        simp [camera_init, Camera.set_rotation, apply_clamp, hz]

/-- The lighting properties of a `Material` (src/Turtle3D.py:153-169). -/
structure Material where
  ambient_color : RGB
  diffuse_color : RGB
  specular_color : RGB
  specular_coefficient : ℝ

/-- The default `Material()`: all colors white, coefficient 10. -/
def default_material : Material :=
  ⟨⟨255, 255, 255⟩, ⟨255, 255, 255⟩, ⟨255, 255, 255⟩, 10⟩

/-- The mutable state of an `Object` (src/Turtle3D.py:593-649): the face
list (1-based vertex indices), the original / transformed / translated
vertex buffers, pose fields and material.  The scratch camera-perspective
buffer is recomputed on every render or distance query and is modelled by
`camera_perspective` below rather than stored. -/
structure Obj where
  face_array : List (List ℕ)
  original_vertex_array : List Vec3
  transformed_vertex_array : List Vec3
  translated_vertex_array : List Vec3
  position : Vec3
  rotation : Vec3
  scale : Vec3
  material : Material
  visible : Bool

/-- `Object._update_translated_vertices` (src/Turtle3D.py:713-720): the
translated buffer is the transformed buffer offset by the position, with the
Z component subtracted rather than added. -/
noncomputable def update_translated_vertices (o : Obj) : Obj :=
  { o with translated_vertex_array :=
      o.transformed_vertex_array.map fun v =>
        ⟨v.x + o.position.x, v.y + o.position.y, v.z - o.position.z⟩ }

/-- `Object._update_transformed_vertices` (src/Turtle3D.py:702-711): rebuild
the transformed buffer from the original one (scale each axis, then rotate
x, then y, then z about the local origin) and then rebuild the translated
buffer. -/
noncomputable def update_transformed_vertices (o : Obj) : Obj :=
  let t := o.original_vertex_array.map fun v =>
    ⟨v.x * o.scale.x, v.y * o.scale.y, v.z * o.scale.z⟩
  let t := rotate_x o.rotation.x ⟨0, 0, 0⟩ t
  let t := rotate_y o.rotation.y ⟨0, 0, 0⟩ t
  let t := rotate_z o.rotation.z ⟨0, 0, 0⟩ t
  update_translated_vertices { o with transformed_vertex_array := t }

/-- `Object.set_rotation` (src/Turtle3D.py:755-767): each axis is written
only when the argument is truthy, then the buffers are recomputed. -/
noncomputable def Obj.set_rotation (o : Obj) (x y z : Option ℝ) : Obj :=
  let o := match x with
    | none => o
    | some xv => if xv = 0 then o else { o with rotation := { o.rotation with x := xv } }
  let o := match y with
    | none => o
    | some yv => if yv = 0 then o else { o with rotation := { o.rotation with y := yv } }
  let o := match z with
    | none => o
    | some zv => if zv = 0 then o else { o with rotation := { o.rotation with z := zv } }
  update_transformed_vertices o

/-- `Object.set_position` (src/Turtle3D.py:902-914). -/
noncomputable def Obj.set_position (o : Obj) (x y z : Option ℝ) : Obj :=
  let o := match x with
    | none => o
    | some xv => if xv = 0 then o else { o with position := { o.position with x := xv } }
  let o := match y with
    | none => o
    | some yv => if yv = 0 then o else { o with position := { o.position with y := yv } }
  let o := match z with
    | none => o
    | some zv => if zv = 0 then o else { o with position := { o.position with z := zv } }
  update_transformed_vertices o

/-- C9: because the setters test their arguments for Python truthiness
(`if x:`), the value 0 behaves exactly like an omitted argument for
`Camera.set_position`, `Object.set_position` and `Object.set_rotation`; in
particular the stored position and rotation entries are unchanged, so a
nonzero coordinate can never be set to exactly 0 through these setters. -/
theorem zero_argument_treated_as_omitted (o : Obj) (c : Camera) :
    c.set_position (some 0) (some 0) (some 0) = c.set_position none none none ∧
    c.set_position (some 0) (some 0) (some 0) = c ∧
    o.set_position (some 0) (some 0) (some 0) = o.set_position none none none ∧
    (o.set_position (some 0) (some 0) (some 0)).position = o.position ∧
    o.set_rotation (some 0) (some 0) (some 0) = o.set_rotation none none none ∧
    (o.set_rotation (some 0) (some 0) (some 0)).rotation = o.rotation := by
  refine ⟨?_, ?_, ?_, ?_, ?_, ?_⟩ <;>
    simp [Camera.set_position, Obj.set_position, Obj.set_rotation,
      update_transformed_vertices, update_translated_vertices]

/-- `perspective_transform` (src/Turtle3D.py:995-1018): map a camera-space
vertex to screen coordinates, or `none` when depth-culled.  `fov`, the
near/far planes and the camera position are read from the enclosing
`Object._render`; `window_width`/`window_height` come from the drawing
surface and `aspect_ratio = window_width / window_height`. -/
noncomputable def perspective_transform (fov near_plane far_plane : ℝ) (camera_position : Vec3)
    (window_width window_height : ℝ) (vert : Vec3) : Option (ℝ × ℝ) :=
  let fov_rad := radians fov
  let half_width := Real.tan (fov_rad / 2)
  let half_height := half_width / (window_width / window_height)
  let x_offset := vert.x - camera_position.x
  let y_offset := vert.y - camera_position.y
  let z_offset := vert.z - camera_position.z
  if z_offset ≤ near_plane then none
  else if z_offset > far_plane then none
  else
    let x_proj := x_offset / (z_offset * half_width)
    let y_proj := y_offset / (z_offset * half_height)
    let x_ndc := x_proj * 2 - 1
    let y_ndc := 1 - y_proj * 2
    some ((x_ndc + 1) / 2 * window_width, (1 - y_ndc) / 2 * window_height)

lemma perspective_transform_eq_none_iff (fov near_plane far_plane : ℝ) (cp : Vec3)
    (W H : ℝ) (v : Vec3) :
    perspective_transform fov near_plane far_plane cp W H v = none ↔
      v.z - cp.z ≤ near_plane ∨ far_plane < v.z - cp.z := by
  unfold perspective_transform
  by_cases h1 : v.z - cp.z ≤ near_plane
  · simp [h1]
  · by_cases h2 : far_plane < v.z - cp.z
    · simp [h1, h2]
    · simp only [if_neg h1]
      rw [if_neg (by simpa using h2)]
      simp [h1, h2]

lemma perspective_transform_eq_some (fov near_plane far_plane : ℝ) (cp : Vec3)
    (W H : ℝ) (v : Vec3) (h1 : near_plane < v.z - cp.z) (h2 : v.z - cp.z ≤ far_plane) :
    perspective_transform fov near_plane far_plane cp W H v =
      some ((((v.x - cp.x) / ((v.z - cp.z) * Real.tan (radians fov / 2)) * 2 - 1) + 1) / 2 * W,
            (1 - (1 - (v.y - cp.y) / ((v.z - cp.z) * (Real.tan (radians fov / 2) / (W / H))) * 2)) / 2 * H) := by
  unfold perspective_transform
  rw [if_neg (not_le.mpr h1), if_neg (not_lt.mpr h2)]

/-- C3: a camera-space vertex is culled by `perspective_transform` (no screen
coordinate is returned) exactly when the depth offset `z − camera_z` is ≤
the near plane or > the far plane; otherwise the x/y offsets are divided by
(depth × half-extent), remapped to NDC, and then to pixel coordinates from
the surface width and height. -/
theorem perspective_transform_culls_iff (fov near_plane far_plane : ℝ) (cp : Vec3)
    (W H : ℝ) (v : Vec3) :
    (perspective_transform fov near_plane far_plane cp W H v = none ↔
      v.z - cp.z ≤ near_plane ∨ far_plane < v.z - cp.z) ∧
    (near_plane < v.z - cp.z → v.z - cp.z ≤ far_plane →
      perspective_transform fov near_plane far_plane cp W H v =
        some ((((v.x - cp.x) / ((v.z - cp.z) * Real.tan (radians fov / 2)) * 2 - 1) + 1) / 2 * W,
              (1 - (1 - (v.y - cp.y) / ((v.z - cp.z) * (Real.tan (radians fov / 2) / (W / H))) * 2)) / 2 * H)) :=
  ⟨perspective_transform_eq_none_iff fov near_plane far_plane cp W H v,
   fun h1 h2 => perspective_transform_eq_some fov near_plane far_plane cp W H v h1 h2⟩

/-- Witness for C3: with the default near/far planes, a 90° field of view, a
2×2 surface and the camera at the origin, the vertex `(1, 1, 2)` is inside
the depth range and projects to the screen point `(1, 1)`. -/
theorem perspective_transform_culls_iff_witness :
    perspective_transform 90 0.1 1000 ⟨0, 0, 0⟩ 2 2 ⟨1, 1, 2⟩ = some (1, 1) := by
  have h := (perspective_transform_culls_iff 90 0.1 1000 ⟨0, 0, 0⟩ 2 2 ⟨1, 1, 2⟩).2
    (by norm_num) (by norm_num)
  rw [h]
  have ht : Real.tan (radians 90 / 2) = 1 := by
    have : radians 90 / 2 = Real.pi / 4 := by unfold radians; ring
    rw [this, Real.tan_pi_div_four]
  rw [ht]
  norm_num

/-- `normalize_vector` (src/Turtle3D.py:989-993): divide by the Euclidean
norm, returning the zero vector for a near-zero (< 1e-6) norm. -/
noncomputable def normalize_vector (v : Vec3) : Vec3 :=
  let norm := Real.sqrt (v.x ^ 2 + v.y ^ 2 + v.z ^ 2)
  if norm < 1e-6 then ⟨0, 0, 0⟩ else ⟨v.x / norm, v.y / norm, v.z / norm⟩

/-- `calculate_normal` (src/Turtle3D.py:979-987): normalized cross product
of the two edge vectors out of the face's first vertex. -/
noncomputable def calculate_normal (face_vertices : List Vec3) : Vec3 :=
  let p0 := face_vertices.getD 0 v0
  let p1 := face_vertices.getD 1 v0
  let p2 := face_vertices.getD 2 v0
  let u : Vec3 := ⟨p1.x - p0.x, p1.y - p0.y, p1.z - p0.z⟩
  let v : Vec3 := ⟨p2.x - p0.x, p2.y - p0.y, p2.z - p0.z⟩
  normalize_vector ⟨u.y * v.z - u.z * v.y, u.z * v.x - u.x * v.z, u.x * v.y - u.y * v.x⟩

/-- The state of a `Light` (src/Turtle3D.py:180-206): unique name, position,
color and intensity. -/
structure LightObj where
  name : String
  position : Vec3
  color : RGB
  intensity : ℝ

/-- The dot product as the source computes it with `zip`. -/
noncomputable def dot (a b : Vec3) : ℝ := a.x * b.x + a.y * b.y + a.z * b.z

/-- `compute_lighting` (src/Turtle3D.py:1020-1043): ambient base color, then
for each light a diffuse and a specular contribution, each channel clamped
at 255 after every light; the specular term alone is attenuated by
`1 / (light_distance + 1)`. -/
noncomputable def compute_lighting (face_vertices : List Vec3) (normal : Vec3)
    (lights : List LightObj) (camera_position : Vec3) (material : Material)
    (ambient_light : RGB) : RGB :=
  let fv0 := face_vertices.getD 0 v0
  let color : RGB := ⟨material.ambient_color.r * ambient_light.r / 255,
                      material.ambient_color.g * ambient_light.g / 255,
                      material.ambient_color.b * ambient_light.b / 255⟩
  let normalized_normal := normalize_vector normal
  lights.foldl (fun color light =>
    let light_dir : Vec3 := ⟨light.position.x - fv0.x, light.position.y - fv0.y,
                             light.position.z - fv0.z⟩
    let light_distance := Real.sqrt (light_dir.x ^ 2 + light_dir.y ^ 2 + light_dir.z ^ 2)
    let normalized_light_dir := normalize_vector light_dir
    let dot_product := max (dot normalized_normal normalized_light_dir) 0
    let diffuse_intensity := dot_product * light.intensity
    let diffuse : RGB := ⟨material.diffuse_color.r * diffuse_intensity * light.color.r / 255,
                          material.diffuse_color.g * diffuse_intensity * light.color.g / 255,
                          material.diffuse_color.b * diffuse_intensity * light.color.b / 255⟩
    let reflect_dir : Vec3 := ⟨2 * normalized_normal.x * dot_product - normalized_light_dir.x,
                               2 * normalized_normal.y * dot_product - normalized_light_dir.y,
                               2 * normalized_normal.z * dot_product - normalized_light_dir.z⟩
    let normalized_reflect_dir := normalize_vector reflect_dir
    let view_dir := normalize_vector ⟨camera_position.x - fv0.x, camera_position.y - fv0.y,
                                      camera_position.z - fv0.z⟩
    let spec_angle := max (dot normalized_reflect_dir view_dir) 0
    let spec_intensity := spec_angle ^ material.specular_coefficient / (light_distance + 1)
    let specular : RGB := ⟨material.specular_color.r * spec_intensity * light.color.r / 255,
                           material.specular_color.g * spec_intensity * light.color.g / 255,
                           material.specular_color.b * spec_intensity * light.color.b / 255⟩
    ⟨min 255 (color.r + diffuse.r + specular.r),
     min 255 (color.g + diffuse.g + specular.g),
     min 255 (color.b + diffuse.b + specular.b)⟩) color

lemma normalize_vector_of_unit (n : Vec3)
    (hn : Real.sqrt (n.x ^ 2 + n.y ^ 2 + n.z ^ 2) = 1) : normalize_vector n = n := by
  unfold normalize_vector
  rw [hn]
  rw [if_neg (by norm_num)]
  simp

lemma dot_self_of_unit (n : Vec3)
    (hn : Real.sqrt (n.x ^ 2 + n.y ^ 2 + n.z ^ 2) = 1) : dot n n = 1 := by
  have h1 : n.x ^ 2 + n.y ^ 2 + n.z ^ 2 = 1 := Real.sqrt_eq_one.mp hn
  unfold dot
  nlinarith [h1]

/-- C5: for a face whose unit normal equals the normalized direction to a
single light, with zero scene ambient light and zero material specular
color, the computed face color is, per channel,
`min(255, diffuseColor · intensity · lightColor / 255)`. -/
theorem directly_lit_face_color (face_vertices : List Vec3) (n : Vec3) (light : LightObj)
    (camera_position : Vec3) (material : Material)
    (hspec : material.specular_color = ⟨0, 0, 0⟩)
    (hn : Real.sqrt (n.x ^ 2 + n.y ^ 2 + n.z ^ 2) = 1)
    (hdir : normalize_vector ⟨light.position.x - (face_vertices.getD 0 v0).x,
        light.position.y - (face_vertices.getD 0 v0).y,
        light.position.z - (face_vertices.getD 0 v0).z⟩ = n) :
    compute_lighting face_vertices n [light] camera_position material ⟨0, 0, 0⟩ =
      ⟨min 255 (material.diffuse_color.r * light.intensity * light.color.r / 255),
       min 255 (material.diffuse_color.g * light.intensity * light.color.g / 255),
       min 255 (material.diffuse_color.b * light.intensity * light.color.b / 255)⟩ := by
  unfold compute_lighting
  rw [List.foldl_cons, List.foldl_nil]
  rw [normalize_vector_of_unit n hn]
  have hd : max (dot n n) 0 = 1 := by rw [dot_self_of_unit n hn]; norm_num
  simp only [hdir, hd, hspec]
  ext <;> simp

/-- Witness for C5: the face vertex `(0,0,0)` with unit normal `(0,0,1)` and
a white light of intensity 1 at `(0,0,5)` directly above it, with diffuse
color `(100,100,100)` and zero specular, is shaded `(100,100,100)`. -/
theorem directly_lit_face_color_witness :
    compute_lighting [⟨0, 0, 0⟩] ⟨0, 0, 1⟩
      [⟨"L", ⟨0, 0, 5⟩, ⟨255, 255, 255⟩, 1⟩] ⟨0, 0, 4⟩
      ⟨⟨255, 255, 255⟩, ⟨100, 100, 100⟩, ⟨0, 0, 0⟩, 10⟩ ⟨0, 0, 0⟩ = ⟨100, 100, 100⟩ := by
  have h := directly_lit_face_color [⟨0, 0, 0⟩] ⟨0, 0, 1⟩
      ⟨"L", ⟨0, 0, 5⟩, ⟨255, 255, 255⟩, 1⟩ ⟨0, 0, 4⟩
      ⟨⟨255, 255, 255⟩, ⟨100, 100, 100⟩, ⟨0, 0, 0⟩, 10⟩ rfl
      (by norm_num [Real.sqrt_one])
      (by
        unfold normalize_vector
        norm_num
        rw [show Real.sqrt 25 = 5 by
          rw [show (25 : ℝ) = 5 ^ 2 by norm_num, Real.sqrt_sq (by norm_num : (0:ℝ) ≤ 5)]]
        rw [if_neg (by norm_num)]
        ext <;> norm_num)
  rw [h]
  norm_num

/-- The failure kinds a `Light.__init__` call can surface.  `typeError`
models a Python `TypeError`: in the duplicate branch the source executes
`raise DuplicateNameError()` (src/Turtle3D.py:196), but
`DuplicateNameError.__init__` (src/Turtle3D.py:48) requires the positional
argument `name`, so evaluating the zero-argument call raises `TypeError`
before any `DuplicateNameError` is constructed. -/
inductive PyErr where
  | duplicateName (name : String)
  | typeError (message : String)
deriving DecidableEq

/-- `Light.__init__` (src/Turtle3D.py:193-206) over an explicit registry
standing for `Light._global_light_memory`: reject a duplicate name, else
apply the truthiness defaults for `color` and `intensity` and append the new
light to the registry. -/
noncomputable def light_init (registry : List LightObj) (name : String) (position : Vec3)
    (color : Option RGB) (intensity : Option ℝ) : Except PyErr (LightObj × List LightObj) :=
  if registry.any (fun light => light.name = name) then
    Except.error (.typeError "DuplicateNameError.__init__ missing required argument: name")
  else
    let light : LightObj :=
      { name := name, position := position,
        color := color.getD ⟨255, 255, 255⟩,
        intensity := match intensity with
          | none => 1
          | some i => if i = 0 then 1 else i }
    Except.ok (light, registry ++ [light])

/-- The light the first `Light("L1", position=[0,0,-10])` call registers. -/
def lightL1 : LightObj := ⟨"L1", ⟨0, 0, -10⟩, ⟨255, 255, 255⟩, 1⟩

/-- C8 (failing input): constructing `Light("L1", [0,0,-10])` in an empty
registry succeeds and registers the light; constructing `Light("L1", [1,1,1])`
afterwards fails — but with a `TypeError` from the mis-called
`DuplicateNameError()` constructor, not with a `DuplicateName` error — and
returns no new registry, so no second light is registered. -/
theorem duplicate_light_name_raises_type_error :
    light_init [] "L1" ⟨0, 0, -10⟩ none none = Except.ok (lightL1, [lightL1]) ∧
    light_init [lightL1] "L1" ⟨1, 1, 1⟩ none none =
      Except.error (.typeError "DuplicateNameError.__init__ missing required argument: name") := by
  constructor
  · simp [light_init, lightL1]
  · simp [light_init, lightL1]

/-- The camera-space transform shared by `Object.get_distance_to_camera`
(src/Turtle3D.py:680-685) and `Object._render` (src/Turtle3D.py:1087-1092):
for each step of the camera's rotation order, rotate the vertices by the
negated camera rotation of that axis about the camera position. -/
noncomputable def camera_perspective (cam : Camera) (verts : List Vec3) : List Vec3 :=
  cam.rotation_order.foldl (fun vs step =>
    let vs := if step = 'x' then rotate_x (-cam.rotation.x) cam.position vs else vs
    let vs := if step = 'y' then rotate_y (-cam.rotation.y) cam.position vs else vs
    if step = 'z' then rotate_z (-cam.rotation.z) cam.position vs else vs) verts

/-- The per-vertex Euclidean distance computed inside
`Object.get_distance_to_camera` (src/Turtle3D.py:689-697). -/
noncomputable def euclid (p v : Vec3) : ℝ :=
  Real.sqrt ((v.x - p.x) ^ 2 + (v.y - p.y) ^ 2 + (v.z - p.z) ^ 2)

/-- `Object.get_distance_to_camera` (src/Turtle3D.py:667-700): recompute the
camera-space buffer, collect the distances from the camera position to every
vertex, sort them ascending and return the first (the Python sort is stable
and ascending; on an empty mesh the source raises, modelled by `headI`'s
default). -/
noncomputable def get_distance_to_camera (cam : Camera) (o : Obj) : ℝ :=
  let arr := camera_perspective cam o.translated_vertex_array
  let distances := arr.map (euclid cam.position)
  (distances.insertionSort (· ≤ ·)).headI

/-- The descending-by-distance relation `Scene.render_scene` sorts with
(`distances.sort(key=lambda x: x[1], reverse=True)`). -/
def farther (a b : Obj × ℝ) : Prop := b.2 ≤ a.2

noncomputable instance : DecidableRel farther := fun a b => Real.decidableLE b.2 a.2

instance : IsTotal (Obj × ℝ) farther := ⟨fun a b => (le_total b.2 a.2).imp id id⟩

instance : IsTrans (Obj × ℝ) farther := ⟨fun _ _ _ hab hbc => le_trans hbc hab⟩

/-- The object order `Scene.render_scene` (src/Turtle3D.py:376-382) draws
in: pair every object with its distance, sort descending by distance
(Python's stable sort with `reverse=True`, modelled by the stable
`insertionSort`), and keep the objects. -/
noncomputable def render_order (cam : Camera) (objects : List Obj) : List Obj :=
  (((objects.map (fun o => (o, get_distance_to_camera cam o))).insertionSort farther).map
    Prod.fst)

lemma insertionSort_headI_isLeast (l : List ℝ) (hl : l ≠ []) :
    (l.insertionSort (· ≤ ·)).headI ∈ l ∧ ∀ x ∈ l, (l.insertionSort (· ≤ ·)).headI ≤ x := by
  have hperm := List.perm_insertionSort (α := ℝ) (· ≤ ·) l
  have hsort := List.sorted_insertionSort (α := ℝ) (· ≤ ·) l
  rcases hs : l.insertionSort (· ≤ ·) with _ | ⟨h, t⟩
  · exact absurd (hperm.symm.trans (hs ▸ List.Perm.refl _)).eq_nil hl
  · rw [hs] at hperm hsort
    refine ⟨hperm.mem_iff.mp (List.mem_cons_self h t), ?_⟩
    intro x hx
    rcases List.mem_cons.mp (hperm.mem_iff.mpr hx) with rfl | hx'
    · simp [List.headI]
    · exact List.rel_of_sorted_cons hsort x hx'

lemma render_order_perm (cam : Camera) (objects : List Obj) :
    (render_order cam objects).Perm objects := by
  unfold render_order
  have h := (List.perm_insertionSort farther
    (objects.map (fun o => (o, get_distance_to_camera cam o)))).map Prod.fst
  rw [List.map_map] at h
  have h2 : List.map (Prod.fst ∘ fun o : Obj => (o, get_distance_to_camera cam o)) objects
      = objects :=
    (List.map_congr_left (fun o _ => rfl)).trans (List.map_id objects)
  rw [h2] at h
  exact h

lemma render_order_pairwise (cam : Camera) (objects : List Obj) :
    (render_order cam objects).Pairwise
      (fun a b => get_distance_to_camera cam b ≤ get_distance_to_camera cam a) := by
  unfold render_order
  have hsort := List.sorted_insertionSort farther
    (objects.map (fun o => (o, get_distance_to_camera cam o)))
  have hmem : ∀ p ∈ (objects.map (fun o => (o, get_distance_to_camera cam o))).insertionSort
      farther, p.2 = get_distance_to_camera cam p.1 := by
    intro p hp
    rcases List.mem_map.mp ((List.mem_insertionSort farther).mp hp) with ⟨o, _, rfl⟩
    rfl
  refine List.pairwise_map.mpr ?_
  refine hsort.imp_of_mem ?_
  intro a b ha hb hab
  have ha2 := hmem a ha
  have hb2 := hmem b hb
  unfold farther at hab
  rw [ha2, hb2] at hab
  exact hab

lemma get_distance_isLeast (cam : Camera) (o : Obj)
    (h : camera_perspective cam o.translated_vertex_array ≠ []) :
    IsLeast {d : ℝ | ∃ v ∈ camera_perspective cam o.translated_vertex_array,
      d = euclid cam.position v} (get_distance_to_camera cam o) := by
  unfold get_distance_to_camera
  have hne : (camera_perspective cam o.translated_vertex_array).map (euclid cam.position) ≠ [] := by
    simpa using h
  obtain ⟨hmem, hle⟩ := insertionSort_headI_isLeast _ hne
  constructor
  · rcases List.mem_map.mp hmem with ⟨v, hv, hev⟩
    exact ⟨v, hv, hev.symm⟩
  · rintro d ⟨v, hv, rfl⟩
    exact hle _ (List.mem_map.mpr ⟨v, hv, rfl⟩)

lemma render_order_three (cam : Camera) (o1 o2 o3 : Obj)
    (h12 : get_distance_to_camera cam o1 < get_distance_to_camera cam o2)
    (h23 : get_distance_to_camera cam o2 < get_distance_to_camera cam o3) :
    render_order cam [o1, o2, o3] = [o3, o2, o1] := by
  have h13 := h12.trans h23
  unfold render_order
  simp only [List.map_cons, List.map_nil, List.insertionSort, List.orderedInsert]
  rw [if_neg (show ¬ farther (o2, get_distance_to_camera cam o2)
        (o3, get_distance_to_camera cam o3) from not_le.mpr h23)]
  simp only [List.orderedInsert]
  rw [if_neg (show ¬ farther (o1, get_distance_to_camera cam o1)
        (o3, get_distance_to_camera cam o3) from not_le.mpr h13)]
  rw [if_neg (show ¬ farther (o1, get_distance_to_camera cam o1)
        (o2, get_distance_to_camera cam o2) from not_le.mpr h12)]
  rfl

/-- C4: `render_scene` processes objects in descending order of
`get_distance_to_camera` (farthest first): the rendered list is a
permutation of the scene's objects, pairwise descending in distance, and for
pairwise distinct distances d1 < d2 < d3 the order is d3, d2, d1; and
`get_distance_to_camera` is the least Euclidean distance from the camera
position to a vertex of the object's camera-space buffer. -/
theorem render_order_farthest_first (cam : Camera) (o1 o2 o3 : Obj)
    (h12 : get_distance_to_camera cam o1 < get_distance_to_camera cam o2)
    (h23 : get_distance_to_camera cam o2 < get_distance_to_camera cam o3) :
    render_order cam [o1, o2, o3] = [o3, o2, o1] ∧
    (∀ objects : List Obj, (render_order cam objects).Perm objects ∧
      (render_order cam objects).Pairwise
        (fun a b => get_distance_to_camera cam b ≤ get_distance_to_camera cam a)) ∧
    (∀ o : Obj, camera_perspective cam o.translated_vertex_array ≠ [] →
      IsLeast {d : ℝ | ∃ v ∈ camera_perspective cam o.translated_vertex_array,
        d = euclid cam.position v} (get_distance_to_camera cam o)) :=
  ⟨render_order_three cam o1 o2 o3 h12 h23,
   fun objects => ⟨render_order_perm cam objects, render_order_pairwise cam objects⟩,
   fun o h => get_distance_isLeast cam o h⟩

lemma rotate_x_zero_angle (p : Vec3) (vs : List Vec3) : rotate_x 0 p vs = vs := by
  unfold rotate_x
  simp only [radians_zero, Real.sin_zero, Real.cos_zero]
  have : ∀ v : Vec3,
      (⟨v.x, ((v.y - p.y) * 1 + (v.z - p.z) * 0) + p.y,
        ((v.z - p.z) * 1 - (v.y - p.y) * 0) + p.z⟩ : Vec3) = v := by
    intro v; ext <;> dsimp <;> ring
  exact (List.map_congr_left (fun v _ => this v)).trans (List.map_id vs)

lemma rotate_y_zero_angle (p : Vec3) (vs : List Vec3) : rotate_y 0 p vs = vs := by
  unfold rotate_y
  simp only [radians_zero, Real.sin_zero, Real.cos_zero]
  have : ∀ v : Vec3,
      (⟨((v.x - p.x) * 1 + (v.z - p.z) * 0) + p.x, v.y,
        ((v.z - p.z) * 1 - (v.x - p.x) * 0) + p.z⟩ : Vec3) = v := by
    intro v; ext <;> dsimp <;> ring
  exact (List.map_congr_left (fun v _ => this v)).trans (List.map_id vs)

lemma rotate_z_zero_angle (p : Vec3) (vs : List Vec3) : rotate_z 0 p vs = vs := by
  unfold rotate_z
  simp only [radians_zero, Real.sin_zero, Real.cos_zero]
  have : ∀ v : Vec3,
      (⟨((v.x - p.x) * 1 + (v.y - p.y) * 0) + p.x,
        ((v.y - p.y) * 1 - (v.x - p.x) * 0) + p.y, v.z⟩ : Vec3) = v := by
    intro v; ext <;> dsimp <;> ring
  exact (List.map_congr_left (fun v _ => this v)).trans (List.map_id vs)

/-- For the default camera (rotation `[0,0,0]`) the camera-space transform
is the identity. -/
lemma camera_perspective_default (vs : List Vec3) :
    camera_perspective default_camera vs = vs := by
  unfold camera_perspective default_camera camera_init
  simp [rotate_x_zero_angle, rotate_y_zero_angle, rotate_z_zero_angle]

/-- A single-vertex object placed at depth `z`, used as a witness input. -/
def objAt (z : ℝ) : Obj :=
  { face_array := [], original_vertex_array := [⟨0, 0, z⟩],
    transformed_vertex_array := [⟨0, 0, z⟩], translated_vertex_array := [⟨0, 0, z⟩],
    position := ⟨0, 0, 0⟩, rotation := ⟨0, 0, 0⟩, scale := ⟨1, 1, 1⟩,
    material := default_material, visible := true }

lemma get_distance_objAt (z : ℝ) (hz : 0 ≤ z) :
    get_distance_to_camera default_camera (objAt z) = z := by
  unfold get_distance_to_camera
  rw [show (objAt z).translated_vertex_array = [⟨0, 0, z⟩] from rfl,
    camera_perspective_default]
  have hcp : default_camera.position = ⟨0, 0, 0⟩ := rfl
  rw [hcp]
  unfold euclid
  simp only [List.map_cons, List.map_nil, List.insertionSort, List.orderedInsert, List.headI]
  rw [show ((⟨0, 0, z⟩ : Vec3).x - (⟨0, 0, 0⟩ : Vec3).x) ^ 2 +
      ((⟨0, 0, z⟩ : Vec3).y - (⟨0, 0, 0⟩ : Vec3).y) ^ 2 +
      ((⟨0, 0, z⟩ : Vec3).z - (⟨0, 0, 0⟩ : Vec3).z) ^ 2 = z ^ 2 by dsimp; ring]
  exact Real.sqrt_sq hz

/-- Witness for C4: with the default camera and three single-vertex objects
at depths 1 < 2 < 3, the render order is farthest first. -/
theorem render_order_farthest_first_witness :
    render_order default_camera [objAt 1, objAt 2, objAt 3] = [objAt 3, objAt 2, objAt 1] :=
  (render_order_farthest_first default_camera (objAt 1) (objAt 2) (objAt 3)
    (by rw [get_distance_objAt 1 (by norm_num), get_distance_objAt 2 (by norm_num)]; norm_num)
    (by rw [get_distance_objAt 2 (by norm_num), get_distance_objAt 3 (by norm_num)]; norm_num)).1

/-- The world-space vertices of a face, looked up 1-based in the translated
buffer (`[self._translated_vertex_array[i - 1] for i in face]`,
src/Turtle3D.py:975). -/
noncomputable def face_world_vertices (o : Obj) (face : List ℕ) : List Vec3 :=
  face.map (fun i => o.translated_vertex_array.getD (i - 1) v0)

/-- `precompute_normals` (src/Turtle3D.py:972-977): one normal per face,
computed by `calculate_normal` from the first three vertices of the face
taken from the **translated** (world-space) vertex buffer. -/
noncomputable def precompute_normals (o : Obj) : List Vec3 :=
  o.face_array.map (fun face => calculate_normal ((face_world_vertices o face).take 3))

/-- Modelled from the claim's words, for comparison with
`precompute_normals`: one normal per face computed from the face's first
three camera-space vertices (the vertices after the inverse camera
rotation). -/
noncomputable def camera_space_normals (o : Obj) (cam : Camera) : List Vec3 :=
  let cverts := camera_perspective cam o.translated_vertex_array
  o.face_array.map (fun face =>
    calculate_normal ((face.map (fun i => cverts.getD (i - 1) v0)).take 3))

/-- The face sort key of `draw_faces` (src/Turtle3D.py:1077): the negated
mean camera-space depth `-mean([vertex_array[i-1][2] + camera_position[2]])`
of the face's vertices. -/
noncomputable def face_sort_key (cverts : List Vec3) (camera_z : ℝ) (face : List ℕ) : ℝ :=
  -((face.map (fun i => (cverts.getD (i - 1) v0).z + camera_z)).sum / face.length)

/-- The ascending-by-key relation `sorted(enumerate(...), key=...)` uses. -/
def face_key_le (cverts : List Vec3) (camera_z : ℝ) (a b : ℕ × List ℕ) : Prop :=
  face_sort_key cverts camera_z a.2 ≤ face_sort_key cverts camera_z b.2

noncomputable instance (cverts : List Vec3) (camera_z : ℝ) :
    DecidableRel (face_key_le cverts camera_z) :=
  fun a b => Real.decidableLE (face_sort_key cverts camera_z a.2)
    (face_sort_key cverts camera_z b.2)

/-- The face order of `draw_faces`: `sorted(enumerate(self._face_array),
key=lambda item: -numpy.mean(...))`, a stable ascending sort by negated mean
depth, i.e. descending by mean depth. -/
noncomputable def sort_faces (faces : List (List ℕ)) (cverts : List Vec3) (camera_z : ℝ) :
    List (ℕ × List ℕ) :=
  faces.enum.insertionSort (face_key_le cverts camera_z)

/-- One face of `draw_wireframe` (src/Turtle3D.py:1059-1072): project each
vertex, drop the culled ones, and skip the face (`continue`, no draw call)
when fewer than 3 survive, else emit the polyline through the survivors. -/
noncomputable def wire_face_call (project : Vec3 → Option (ℝ × ℝ)) (cverts : List Vec3)
    (face : List ℕ) : Option (List (ℝ × ℝ)) :=
  let projected_face := face.filterMap (fun vertex_index => project (cverts.getD (vertex_index - 1) v0))
  if projected_face.length < 3 then none else some projected_face

/-- `draw_wireframe` (src/Turtle3D.py:1056-1072) as the list of polyline
draw calls it issues, in face order. -/
noncomputable def draw_wireframe (project : Vec3 → Option (ℝ × ℝ)) (cverts : List Vec3)
    (faces : List (List ℕ)) : List (List (ℝ × ℝ)) :=
  faces.filterMap (wire_face_call project cverts)

/-- One face of `draw_faces` (src/Turtle3D.py:1078-1085): look the face's
vertices up in the camera-space buffer, project them, drop the culled ones,
skip the face when fewer than 3 survive, else emit one filled-polygon draw
call whose color is `compute_lighting` of the camera-space face vertices and
the precomputed normal at the face's enumeration index. -/
noncomputable def face_mode_call (project : Vec3 → Option (ℝ × ℝ)) (cverts : List Vec3)
    (normals : List Vec3) (lights : List LightObj) (camera_position : Vec3)
    (material : Material) (ambient_light : RGB) (p : ℕ × List ℕ) :
    Option (List (ℝ × ℝ) × RGB) :=
  let face_vertices := p.2.map (fun i => cverts.getD (i - 1) v0)
  let projected_vertices := (face_vertices.map project).filterMap id
  if projected_vertices.length < 3 then none
  else some (projected_vertices,
    compute_lighting face_vertices (normals.getD p.1 v0) lights camera_position material
      ambient_light)

/-- `draw_faces` (src/Turtle3D.py:1074-1085) as the list of filled-polygon
draw calls it issues: precompute the normals, sort the enumerated faces by
descending mean depth, then filter-map the per-face step over them. -/
noncomputable def draw_faces (cam : Camera) (W H : ℝ) (o : Obj) (cverts : List Vec3)
    (lights : List LightObj) (ambient_light : RGB) : List (List (ℝ × ℝ) × RGB) :=
  (sort_faces o.face_array cverts cam.position.z).filterMap
    (face_mode_call (perspective_transform cam.fov cam.near_plane cam.far_plane cam.position W H)
      cverts (precompute_normals o) lights cam.position o.material ambient_light)

lemma mem_sort_faces {faces : List (List ℕ)} {cverts : List Vec3} {camera_z : ℝ}
    {p : ℕ × List ℕ} (hp : p ∈ sort_faces faces cverts camera_z) :
    faces[p.1]? = some p.2 := by
  have hmem : p ∈ faces.enum := (List.mem_insertionSort _).mp hp
  obtain ⟨i, f⟩ := p
  exact List.mk_mem_enum_iff_getElem?.mp hmem

lemma precompute_normals_getD (o : Obj) {i : ℕ} {face : List ℕ}
    (h : o.face_array[i]? = some face) :
    (precompute_normals o).getD i v0 =
      calculate_normal ((face_world_vertices o face).take 3) := by
  unfold precompute_normals
  rw [List.getD_eq_getElem?_getD, List.getElem?_map, h]
  rfl

lemma filterMap_eq_filter_map {α β : Type _} (l : List α) (F : α → Option β)
    (C : α → Bool) (G : α → β)
    (h : ∀ a ∈ l, F a = if C a then some (G a) else none) :
    l.filterMap F = (l.filter C).map G := by
  induction l with
  | nil => rfl
  | cons a l ih =>
    rw [List.filterMap_cons, List.filter_cons]
    have ha := h a (List.mem_cons_self a l)
    have hrest := ih (fun b hb => h b (List.mem_cons_of_mem a hb))
    by_cases hc : C a
    · rw [ha, if_pos hc, if_pos hc, List.map_cons, hrest]
    · rw [ha, if_neg hc, if_neg hc, hrest]

/-- The projection closure `Object._render` passes to both drawing modes:
`perspective_transform` specialised to the camera parameters and the window
size. -/
noncomputable def render_project (cam : Camera) (W H : ℝ) : Vec3 → Option (ℝ × ℝ) :=
  perspective_transform cam.fov cam.near_plane cam.far_plane cam.position W H

/-- C2 (amended): the one normal precomputed per face and used for that
face's lighting is computed from the face's first three **translated**
(world-space) vertices — the buffer before the inverse camera rotation —
while the lighting itself is evaluated at the face's camera-space vertices:
every draw call `draw_faces` emits uses
`calculate_normal` of the world-space face vertices as the normal passed to
`compute_lighting`. -/
theorem face_normals_world_space (cam : Camera) (W H : ℝ) (o : Obj) (cverts : List Vec3)
    (lights : List LightObj) (ambient_light : RGB) :
    draw_faces cam W H o cverts lights ambient_light =
      ((sort_faces o.face_array cverts cam.position.z).filter
        (fun p => decide (3 ≤ (((p.2.map (fun i => cverts.getD (i - 1) v0)).map
          (render_project cam W H)).filterMap id).length))).map
        (fun p => ((((p.2.map (fun i => cverts.getD (i - 1) v0)).map
            (render_project cam W H)).filterMap id),
          compute_lighting (p.2.map (fun i => cverts.getD (i - 1) v0))
            (calculate_normal ((face_world_vertices o p.2).take 3))
            lights cam.position o.material ambient_light)) := by
  unfold draw_faces render_project
  apply filterMap_eq_filter_map
  intro p hp
  have hnorm := precompute_normals_getD o (mem_sort_faces hp)
  unfold face_mode_call
  simp only [hnorm]
  by_cases hlen : (((p.2.map (fun i => cverts.getD (i - 1) v0)).map
      (perspective_transform cam.fov cam.near_plane cam.far_plane cam.position W H)).filterMap
        id).length < 3
  · rw [if_pos hlen, if_neg (by simp only [decide_eq_true_eq]; exact not_le.mpr hlen)]
  · rw [if_neg hlen, if_pos (by simp only [decide_eq_true_eq]; exact not_lt.mp hlen)]

/-- The triangle object used as concrete input: world-space vertices
`(0,0,0), (1,0,0), (0,1,0)` and the single face `[1,2,3]`. -/
def oTriangle : Obj :=
  { face_array := [[1, 2, 3]],
    original_vertex_array := [⟨0, 0, 0⟩, ⟨1, 0, 0⟩, ⟨0, 1, 0⟩],
    transformed_vertex_array := [⟨0, 0, 0⟩, ⟨1, 0, 0⟩, ⟨0, 1, 0⟩],
    translated_vertex_array := [⟨0, 0, 0⟩, ⟨1, 0, 0⟩, ⟨0, 1, 0⟩],
    position := ⟨0, 0, 0⟩, rotation := ⟨0, 0, 0⟩, scale := ⟨1, 1, 1⟩,
    material := default_material, visible := true }

/-- A camera at the origin rotated 90° about the Y axis, with the default
rotation order. -/
def camC : Camera :=
  { position := ⟨0, 0, 0⟩, rotation := ⟨0, 90, 0⟩, fov := 60, near_plane := 0.1,
    far_plane := 1000, rotation_order := ['y', 'x', 'z'],
    x_clamp := none, y_clamp := none, z_clamp := none }

lemma radians_neg_ninety : radians (-90) = -(Real.pi / 2) := by
  unfold radians; ring

lemma cos_radians_neg_ninety : Real.cos (radians (-90)) = 0 := by
  rw [radians_neg_ninety, Real.cos_neg, Real.cos_pi_div_two]

lemma sin_radians_neg_ninety : Real.sin (radians (-90)) = -1 := by
  rw [radians_neg_ninety, Real.sin_neg, Real.sin_pi_div_two]

lemma rotate_y_neg_ninety_origin (vs : List Vec3) :
    rotate_y (-90) ⟨0, 0, 0⟩ vs = vs.map (fun v => ⟨-v.z, v.y, v.x⟩) := by
  unfold rotate_y
  simp only [cos_radians_neg_ninety, sin_radians_neg_ninety]
  apply List.map_congr_left
  intro v _
  ext <;> dsimp <;> ring

lemma camera_perspective_camC :
    camera_perspective camC [⟨0, 0, 0⟩, ⟨1, 0, 0⟩, ⟨0, 1, 0⟩] =
      [⟨0, 0, 0⟩, ⟨0, 0, 1⟩, ⟨0, 1, 0⟩] := by
  unfold camera_perspective camC
  simp only [List.foldl_cons, List.foldl_nil]
  norm_num [rotate_x_zero_angle, rotate_z_zero_angle, rotate_y_neg_ninety_origin]
  simp [if_neg (show ¬('z' : Char) = 'y' by decide),
    if_neg (show ¬('x' : Char) = 'y' by decide)]

lemma normalize_unit_z : normalize_vector ⟨0, 0, 1⟩ = ⟨0, 0, 1⟩ := by
  unfold normalize_vector
  norm_num [Real.sqrt_one]

lemma normalize_neg_unit_x : normalize_vector ⟨-1, 0, 0⟩ = ⟨-1, 0, 0⟩ := by
  unfold normalize_vector
  norm_num [Real.sqrt_one]

/-- C2 (counterexample): for the triangle object and the Y-rotated camera,
the normal the renderer precomputes and uses for lighting — built from the
translated (world-space) vertices — is `(0,0,1)`, whereas the normal built
from the face's first three camera-space vertices, as the claim states, is
`(-1,0,0)`; the two disagree. -/
theorem face_normals_not_camera_space :
    precompute_normals oTriangle = [⟨0, 0, 1⟩] ∧
    camera_space_normals oTriangle camC = [⟨-1, 0, 0⟩] ∧
    precompute_normals oTriangle ≠ camera_space_normals oTriangle camC := by
  have hworld : calculate_normal [(⟨0, 0, 0⟩ : Vec3), ⟨1, 0, 0⟩, ⟨0, 1, 0⟩] = ⟨0, 0, 1⟩ := by
    unfold calculate_normal
    norm_num [List.getD, normalize_unit_z]
  have hcam : calculate_normal [(⟨0, 0, 0⟩ : Vec3), ⟨0, 0, 1⟩, ⟨0, 1, 0⟩] = ⟨-1, 0, 0⟩ := by
    unfold calculate_normal
    norm_num [List.getD, normalize_neg_unit_x]
  have h1 : precompute_normals oTriangle = [⟨0, 0, 1⟩] := by
    unfold precompute_normals oTriangle face_world_vertices
    norm_num [List.getD, hworld]
  have h2 : camera_space_normals oTriangle camC = [⟨-1, 0, 0⟩] := by
    unfold camera_space_normals
    rw [show oTriangle.translated_vertex_array = [⟨0, 0, 0⟩, ⟨1, 0, 0⟩, ⟨0, 1, 0⟩] from rfl,
      camera_perspective_camC,
      show oTriangle.face_array = [[1, 2, 3]] from rfl]
    norm_num [List.getD, hcam]
  refine ⟨h1, h2, ?_⟩
  rw [h1, h2]
  intro h
  simp only [List.cons.injEq, Vec3.mk.injEq] at h
  norm_num at h

lemma face_mode_projected_eq (project : Vec3 → Option (ℝ × ℝ)) (cverts : List Vec3)
    (face : List ℕ) :
    ((face.map (fun i => cverts.getD (i - 1) v0)).map project).filterMap id =
      face.filterMap (fun idx => project (cverts.getD (idx - 1) v0)) := by
  rw [List.map_map, List.filterMap_map]
  rfl

lemma wire_face_call_none (project : Vec3 → Option (ℝ × ℝ)) (cverts : List Vec3)
    (face : List ℕ)
    (h : (face.filterMap (fun idx => project (cverts.getD (idx - 1) v0))).length < 3) :
    wire_face_call project cverts face = none := by
  unfold wire_face_call
  simp only []
  rw [if_pos h]

lemma face_mode_call_none (project : Vec3 → Option (ℝ × ℝ)) (cverts : List Vec3)
    (normals : List Vec3) (lights : List LightObj) (camera_position : Vec3)
    (material : Material) (ambient_light : RGB) (i : ℕ) (face : List ℕ)
    (h : (face.filterMap (fun idx => project (cverts.getD (idx - 1) v0))).length < 3) :
    face_mode_call project cverts normals lights camera_position material ambient_light
      (i, face) = none := by
  unfold face_mode_call
  simp only []
  rw [face_mode_projected_eq, if_pos h]

/-- C7: for every face, in both wireframe and face mode: a face with fewer
than 3 surviving projected vertices is skipped (its per-face step emits no
draw call); a face all of whose vertices are culled by the near/far test is
skipped; and when every face of the object has fewer than 3 survivors, both
`draw_wireframe` and `draw_faces` emit zero draw calls. -/
theorem few_surviving_vertices_skip_face (cam : Camera) (W H : ℝ) (o : Obj)
    (cverts : List Vec3) (lights : List LightObj) (ambient_light : RGB) :
    (∀ face : List ℕ,
      (face.filterMap (fun idx => render_project cam W H (cverts.getD (idx - 1) v0))).length < 3 →
      wire_face_call (render_project cam W H) cverts face = none ∧
      ∀ i : ℕ, face_mode_call (render_project cam W H) cverts (precompute_normals o) lights
        cam.position o.material ambient_light (i, face) = none) ∧
    (∀ face : List ℕ,
      (∀ idx ∈ face, (cverts.getD (idx - 1) v0).z - cam.position.z ≤ cam.near_plane ∨
        cam.far_plane < (cverts.getD (idx - 1) v0).z - cam.position.z) →
      wire_face_call (render_project cam W H) cverts face = none ∧
      ∀ i : ℕ, face_mode_call (render_project cam W H) cverts (precompute_normals o) lights
        cam.position o.material ambient_light (i, face) = none) ∧
    ((∀ face ∈ o.face_array,
        (face.filterMap (fun idx => render_project cam W H (cverts.getD (idx - 1) v0))).length < 3) →
      draw_wireframe (render_project cam W H) cverts o.face_array = [] ∧
      draw_faces cam W H o cverts lights ambient_light = []) := by
  have part1 : ∀ face : List ℕ,
      (face.filterMap (fun idx => render_project cam W H (cverts.getD (idx - 1) v0))).length < 3 →
      wire_face_call (render_project cam W H) cverts face = none ∧
      ∀ i : ℕ, face_mode_call (render_project cam W H) cverts (precompute_normals o) lights
        cam.position o.material ambient_light (i, face) = none := by
    intro face h
    exact ⟨wire_face_call_none _ _ _ h, fun i => face_mode_call_none _ _ _ _ _ _ _ i face h⟩
  refine ⟨part1, ?_, ?_⟩
  · intro face hcull
    have hnone : ∀ idx ∈ face, render_project cam W H (cverts.getD (idx - 1) v0) = none := by
      intro idx hidx
      exact (perspective_transform_eq_none_iff cam.fov cam.near_plane cam.far_plane
        cam.position W H (cverts.getD (idx - 1) v0)).mpr (hcull idx hidx)
    have hempty : face.filterMap (fun idx => render_project cam W H (cverts.getD (idx - 1) v0))
        = [] := List.filterMap_eq_nil_iff.mpr hnone
    exact part1 face (by rw [hempty]; norm_num)
  · intro hall
    constructor
    · exact List.filterMap_eq_nil_iff.mpr (fun face hface => (part1 face (hall face hface)).1)
    · unfold draw_faces
      apply List.filterMap_eq_nil_iff.mpr
      intro p hp
      have hmem : p.2 ∈ o.face_array := by
        obtain ⟨hi, heq⟩ := List.getElem?_eq_some_iff.mp (mem_sort_faces hp)
        exact heq ▸ List.getElem_mem hi
      have := (part1 p.2 (hall p.2 hmem)).2 p.1
      rw [show (p.1, p.2) = p from rfl] at this
      unfold render_project at this
      exact this

/-- Witness for C7: the triangle object's face lies entirely in the plane
`z = 0`, i.e. fully behind the default camera's near plane (depth 0 ≤ 0.1),
so both render modes issue zero draw calls. -/
theorem few_surviving_vertices_skip_face_witness :
    draw_wireframe (render_project default_camera 2 2) oTriangle.translated_vertex_array
      oTriangle.face_array = [] ∧
    draw_faces default_camera 2 2 oTriangle oTriangle.translated_vertex_array []
      ⟨25, 25, 25⟩ = [] := by
  apply (few_surviving_vertices_skip_face default_camera 2 2 oTriangle
    oTriangle.translated_vertex_array [] ⟨25, 25, 25⟩).2.2
  intro face hface
  have hnone : ∀ v : Vec3, v.z = 0 → render_project default_camera 2 2 v = none := by
    intro v hv
    unfold render_project
    rw [perspective_transform_eq_none_iff]
    left
    rw [hv]
    norm_num [default_camera, camera_init]
  have hf : face = [1, 2, 3] := by simpa [oTriangle] using hface
  subst hf
  have e1 : render_project default_camera 2 2 (⟨0, 0, 0⟩ : Vec3) = none := hnone _ rfl
  have e2 : render_project default_camera 2 2 (⟨1, 0, 0⟩ : Vec3) = none := hnone _ rfl
  have e3 : render_project default_camera 2 2 (⟨0, 1, 0⟩ : Vec3) = none := hnone _ rfl
  norm_num [oTriangle, List.getD, e1, e2, e3]

end Turtle3D
